import Mathlib

/-!
Shallow embedding of the NetScout Wi-Fi discovery client
(`services/geminiService.ts` and `App.tsx`).

Modelling conventions:
* JavaScript values of TypeScript optional fields become `Option` values.
* The JavaScript `x || dflt` idiom is modelled by `jsOrInt` / `jsOrStr`:
  it replaces `none` AND the falsy values `0` / `""` by the default.
* `Math.floor(x / 10)` on integers is `Int.fdiv x 10` (floor division).
* The two `Math.floor(Math.random() * 500)` draws inside one mapped record
  are independent calls, so they are modelled by two separate parameters
  (`r1` for the `distance` string on line 55, `r2` for `distanceValue`
  on line 56 of the source).
* `Date.now()` is a parameter (`now`), indexed by the record's position.
* `JSON.parse` plus the subsequent loosely-typed `.map` is a platform
  primitive, not repository code; it is modelled by an abstract
  `parse : String → Option (List RawItem)` parameter, `none` standing for
  a thrown deserialization/mapping error.
* `String.prototype.localeCompare` is modelled as code-point
  lexicographic comparison of the underlying character lists (`charsLe`).
* The artificial 2-second delay in `retrievePasswordEthically` and the
  `async` wrappers are pure latency and are not part of the value model.
-/

/-- The `WiFiHotspot` interface of `geminiService.ts`.  The `security` and
`type` fields are TypeScript string-literal unions, but at runtime they hold
whatever string the parsed record supplied, so they are modelled as `String`.
`coordinates` is never written nor read by the modelled code and is omitted. -/
structure WiFiHotspot where
  id : String
  name : String
  address : String
  distance : String
  distanceValue : Option Int
  signalStrength : Int
  security : String
  password : Option String
  type : String
deriving DecidableEq, Repr

/-- One loosely-typed record (`item : any`) of the array parsed out of the
upstream text response.  Only the fields the mapper reads are listed, plus
`signalStrength`, which a raw record may well carry but which the mapper
never reads. -/
structure RawItem where
  name : Option String
  address : Option String
  distanceValue : Option Int
  signalStrength : Option Int
  security : Option String
  password : Option String
  type : Option String
deriving DecidableEq, Repr

/-- JavaScript `v || dflt` for a possibly-undefined number: `undefined` and
the falsy number `0` both yield the default. -/
def jsOrInt (v : Option Int) (dflt : Int) : Int :=
  match v with
  | none => dflt
  | some n => if n = 0 then dflt else n

/-- JavaScript `v || dflt` for a possibly-undefined string: `undefined` and
the falsy empty string both yield the default. -/
def jsOrStr (v : Option String) (dflt : String) : String :=
  match v with
  | none => dflt
  | some s => if s = "" then dflt else s

/-- JavaScript truthiness of a possibly-undefined string: truthy iff present
and non-empty. -/
def jsTruthyStr (v : Option String) : Bool :=
  match v with
  | none => false
  | some s => decide (s ≠ "")

/-- The normalization of one raw record, lines 51–61 of
`geminiService.ts`: the body of `data.map((item, index) => ({...}))`.
`now` is the `Date.now()` reading, `r1` and `r2` the two
`Math.floor(Math.random() * 500)` draws, in source order. -/
def normalizeItem (index : Nat) (now : Nat) (r1 r2 : Nat) (item : RawItem) :
    WiFiHotspot :=
  { id := "wifi-" ++ toString index ++ "-" ++ toString now
    name := jsOrStr item.name "Unknown Hotspot"
    address := jsOrStr item.address "Nearby"
    distance := toString (jsOrInt item.distanceValue (Int.ofNat r1)) ++ "m"
    distanceValue := some (jsOrInt item.distanceValue (Int.ofNat r2))
    signalStrength := max 30 (100 - Int.fdiv (jsOrInt item.distanceValue 100) 10)
    security := jsOrStr item.security
      (if jsTruthyStr item.password ∧ item.password ≠ some "None"
        then "WPA2" else "Open")
    password := if item.password = some "None" then none else item.password
    type := jsOrStr item.type "Public Space" }

/-- `data.map((item, index) => ...)` with the running index made explicit;
each record consumes its own `Date.now()` reading and two fresh random
draws, in evaluation order. -/
def normalizeAll (rand : Nat → Nat) (now : Nat → Nat) :
    Nat → List RawItem → List WiFiHotspot
  | _, [] => []
  | i, item :: rest =>
      normalizeItem i (now i) (rand (2 * i)) (rand (2 * i + 1)) item ::
        normalizeAll rand now (i + 1) rest

/-- The fixed fallback sample list, lines 68–72 of `geminiService.ts`. -/
def fallbackHotspots : List WiFiHotspot :=
  [ { id := "1", name := "Starbucks_Guest", address := "123 Main St",
      distance := "150m", distanceValue := some 150, signalStrength := 92,
      security := "Public", password := some "None (Web Login)", type := "Cafe" },
    { id := "2", name := "Library_Free_WiFi", address := "456 Library Ln",
      distance := "300m", distanceValue := some 300, signalStrength := 85,
      security := "Open", password := none, type := "Library" },
    { id := "3", name := "DailyGrind_Secure", address := "789 Brew Blvd",
      distance := "450m", distanceValue := some 450, signalStrength := 78,
      security := "WPA2", password := some "coffee_lover", type := "Cafe" } ]

/-- The regex match `text.match(/\x5b[\s\S]*\x5d/)` (line 48): the greedy
match runs from the first opening bracket to the last closing bracket of the
whole text, and succeeds iff some closing bracket lies strictly after the
first opening bracket. -/
def jsonMatch (s : String) : Option String :=
  let cs := s.data
  match cs.findIdx? (· = '['), cs.reverse.findIdx? (· = ']') with
  | some i, some k =>
      let j := cs.length - 1 - k
      if i < j then some (String.mk ((cs.drop i).take (j - i + 1))) else none
  | _, _ => none

/-- `findNearbyWiFi` (lines 18–77 of `geminiService.ts`), with the effectful
inputs made explicit: `upstream` is the generative-service call — `.error`
when it throws, `.ok t` when it returns with `response.text = t` (possibly
undefined); `parse` models `JSON.parse` plus the loosely-typed `.map`
success/throw; `rand` and `now` feed the per-record random draws and clock
readings. -/
def findNearbyWiFi (upstream : Except Unit (Option String))
    (parse : String → Option (List RawItem))
    (rand : Nat → Nat) (now : Nat → Nat) : List WiFiHotspot :=
  match upstream with
  | .error _ => []
  | .ok t =>
      let text := t.getD ""
      match jsonMatch text with
      | none => fallbackHotspots
      | some m =>
          match parse m with
          | none => fallbackHotspots
          | some data => normalizeAll rand now 0 data

/-- Message returned for Open/Public networks (line 86). -/
def publicNetworkMessage : String :=
  "This is a public network. No password required, but web authentication may be needed."

/-- Message returned with a stored password (line 92). -/
def retrievedMessage : String :=
  "Password retrieved from community-shared database. Please use responsibly."

/-- Message returned when no shared password exists (line 97). -/
def notFoundMessage : String :=
  "No community-shared password found for this private network. We do not support unauthorized access to private networks."

/-- `retrievePasswordEthically` (lines 79–99 of `geminiService.ts`) as a pure
value function: first component is the optional password, second the message.
The guard on line 89 is JavaScript truthiness of `hotspot.password`. -/
def retrievePasswordEthically (hotspot : WiFiHotspot) :
    Option String × String :=
  if hotspot.security = "Open" ∨ hotspot.security = "Public" then
    (none, publicNetworkMessage)
  else if jsTruthyStr hotspot.password then
    (hotspot.password, retrievedMessage)
  else
    (none, notFoundMessage)

/-- The three values of the `SortKey` type in `App.tsx`. -/
inductive SortKey where
  | signalStrength
  | distanceValue
  | name
deriving DecidableEq, Repr

/-- Code-point lexicographic comparison of character lists; the model of
`a.name.localeCompare(b.name) <= 0`. -/
def charsLe : List Char → List Char → Bool
  | [], _ => true
  | _ :: _, [] => false
  | a :: as, b :: bs => if a < b then true else if b < a then false else charsLe as bs

/-- The comparator of `sortedHotspots` (lines 91–95 of `App.tsx`), rendered
as a boolean "comparator result is nonpositive" relation: name ascending,
`(a.distanceValue || 0) - (b.distanceValue || 0)` ascending, signal strength
descending.  For an `Int`-valued `signalStrength` the `|| 0` guard on line 94
is the identity. -/
def hotspotLe (key : SortKey) (a b : WiFiHotspot) : Bool :=
  match key with
  | .name => charsLe a.name.data b.name.data
  | .distanceValue => decide (a.distanceValue.getD 0 ≤ b.distanceValue.getD 0)
  | .signalStrength => decide (b.signalStrength ≤ a.signalStrength)

/-- `sortedHotspots` (lines 90–96 of `App.tsx`): `[...hotspots].sort(cmp)` —
a stable sort of a fresh copy by the comparator, the original list untouched. -/
def sortedHotspots (key : SortKey) (hotspots : List WiFiHotspot) :
    List WiFiHotspot :=
  hotspots.mergeSort (hotspotLe key)

/-- A raw record that supplies distance 0 and omits everything else. -/
def zeroDistItem : RawItem :=
  { name := none, address := none, distanceValue := some 0,
    signalStrength := none, security := none, password := none, type := none }

/-- A raw record whose source omits the distance entirely. -/
def missingDistItem : RawItem :=
  { name := some "Cafe One", address := none, distanceValue := none,
    signalStrength := none, security := none, password := none, type := none }

/-- A raw record that supplies its own signal strength of 55 at distance 100. -/
def suppliedSignalItem : RawItem :=
  { name := none, address := none, distanceValue := some 100,
    signalStrength := some 55, security := none, password := none, type := none }

/-- A WPA2 hotspot carrying a present-but-empty password string. -/
def emptyPasswordHotspot : WiFiHotspot :=
  { id := "h", name := "SecretCafe", address := "1 Side St", distance := "10m",
    distanceValue := some 10, signalStrength := 99, security := "WPA2",
    password := some "", type := "Cafe" }

/-! ### Order-theoretic facts about the comparators -/

theorem charsLe_trans : ∀ as bs cs, charsLe as bs = true → charsLe bs cs = true →
    charsLe as cs = true := by
  intro as
  induction as with
  | nil => intro bs cs _ _; rfl
  | cons a as ih =>
    intro bs cs h1 h2
    cases bs with
    | nil => simp [charsLe] at h1
    | cons b bs =>
      cases cs with
      | nil => simp [charsLe] at h2
      | cons c cs =>
        simp only [charsLe] at h1 h2 ⊢
        by_cases hab : a < b
        · by_cases hbc : b < c
          · simp [lt_trans hab hbc]
          · by_cases hcb : c < b
            · simp [hbc, hcb] at h2
            · have hbc' : b = c := le_antisymm (not_lt.mp hcb) (not_lt.mp hbc)
              simp [hbc' ▸ hab]
        · by_cases hba : b < a
          · simp [hab, hba] at h1
          · have hab' : a = b := le_antisymm (not_lt.mp hba) (not_lt.mp hab)
            subst hab'
            simp only [hab, if_false, if_neg hba] at h1
            by_cases hac : a < c
            · simp [hac]
            · by_cases hca : c < a
              · simp [hac, hca] at h2
              · simp only [hac, if_false, if_neg hca] at h2 ⊢
                exact ih bs cs h1 h2

theorem charsLe_total : ∀ as bs, (charsLe as bs || charsLe bs as) = true := by
  intro as
  induction as with
  | nil => intro bs; simp [charsLe]
  | cons a as ih =>
    intro bs
    cases bs with
    | nil => simp [charsLe]
    | cons b bs =>
      simp only [charsLe]
      by_cases hab : a < b
      · simp [hab]
      · by_cases hba : b < a
        · simp [hab, hba]
        · simp [hab, hba, ih bs]

theorem hotspotLe_trans (key : SortKey) : ∀ a b c, hotspotLe key a b = true →
    hotspotLe key b c = true → hotspotLe key a c = true := by
  intro a b c h1 h2
  cases key with
  | name =>
    simp only [hotspotLe] at h1 h2 ⊢
    exact charsLe_trans _ _ _ h1 h2
  | distanceValue =>
    simp only [hotspotLe, decide_eq_true_eq] at h1 h2 ⊢
    exact le_trans h1 h2
  | signalStrength =>
    simp only [hotspotLe, decide_eq_true_eq] at h1 h2 ⊢
    exact le_trans h2 h1

theorem hotspotLe_total (key : SortKey) : ∀ a b,
    (hotspotLe key a b || hotspotLe key b a) = true := by
  intro a b
  cases key with
  | name =>
    simp only [hotspotLe]
    exact charsLe_total _ _
  | distanceValue =>
    simp only [hotspotLe]
    rcases le_total (a.distanceValue.getD 0) (b.distanceValue.getD 0) with h | h <;>
      simp [h]
  | signalStrength =>
    simp only [hotspotLe]
    rcases le_total a.signalStrength b.signalStrength with h | h <;> simp [h]

/-! ### Helper lemmas about normalization output -/

theorem mem_normalizeAll {rand now : Nat → Nat} :
    ∀ (i : Nat) (items : List RawItem) (h : WiFiHotspot),
      h ∈ normalizeAll rand now i items →
      ∃ j item, item ∈ items ∧
        h = normalizeItem j (now j) (rand (2 * j)) (rand (2 * j + 1)) item := by
  intro i items
  induction items generalizing i with
  | nil => intro h hmem; simp [normalizeAll] at hmem
  | cons item rest ih =>
    intro h hmem
    simp only [normalizeAll, List.mem_cons] at hmem
    rcases hmem with h1 | h2
    · exact ⟨i, item, List.mem_cons_self _ _, h1⟩
    · obtain ⟨j, it, hit, he⟩ := ih (i + 1) h h2
      exact ⟨j, it, List.mem_cons_of_mem _ hit, he⟩

theorem normalizeItem_signalStrength_bounds (index now r1 r2 : Nat) (item : RawItem)
    (hd : item.distanceValue = none ∨
      ∃ d : Int, item.distanceValue = some d ∧ 0 ≤ d) :
    30 ≤ (normalizeItem index now r1 r2 item).signalStrength ∧
      (normalizeItem index now r1 r2 item).signalStrength ≤ 100 := by
  have hpos : 0 ≤ jsOrInt item.distanceValue 100 := by
    rcases hd with h | ⟨d, hdv, hge⟩
    · simp [jsOrInt, h]
    · simp only [jsOrInt, hdv]
      split <;> simp [hge]
  have hfd : 0 ≤ Int.fdiv (jsOrInt item.distanceValue 100) 10 :=
    Int.fdiv_nonneg hpos (by decide)
  constructor
  · exact le_max_left _ _
  · exact max_le (by decide) (by linarith)

theorem fallback_signalStrength_bounds :
    ∀ h ∈ fallbackHotspots, 30 ≤ h.signalStrength ∧ h.signalStrength ≤ 100 := by
  decide

/-! ### Claim theorems -/

/-- **C1** counterexample: the claim asserts that a supplied distance of 0
yields signal strength 100, but the code computes `item.distanceValue || 100`
so a supplied 0 is replaced by the default 100 and the resulting strength is
90, not 100. -/
theorem signalStrength_zero_distance_cex :
    zeroDistItem.distanceValue = some 0 ∧
    (normalizeItem 0 0 0 0 zeroDistItem).signalStrength = 90 ∧
    (normalizeItem 0 0 0 0 zeroDistItem).signalStrength ≠ 100 := by
  decide

/-- **C1** (amended): the normalized signal strength is always
`max(30, 100 - floor(d / 10))` where `d` is the supplied distance when that
distance is present and nonzero, and 100 when the distance is absent or zero;
in particular distance 100 yields 90, distance 1000 yields 30, and an absent
or zero distance yields 90. -/
theorem signalStrength_from_distance (index now r1 r2 : Nat) (item : RawItem) :
    (normalizeItem index now r1 r2 item).signalStrength =
      max 30 (100 - Int.fdiv (jsOrInt item.distanceValue 100) 10) ∧
    (item.distanceValue = some 100 →
      (normalizeItem index now r1 r2 item).signalStrength = 90) ∧
    (item.distanceValue = some 1000 →
      (normalizeItem index now r1 r2 item).signalStrength = 30) ∧
    ((item.distanceValue = none ∨ item.distanceValue = some 0) →
      (normalizeItem index now r1 r2 item).signalStrength = 90) := by
  refine ⟨rfl, ?_, ?_, ?_⟩
  · intro h
    show max 30 (100 - Int.fdiv (jsOrInt item.distanceValue 100) 10) = 90
    rw [h]; decide
  · intro h
    show max 30 (100 - Int.fdiv (jsOrInt item.distanceValue 100) 10) = 30
    rw [h]; decide
  · intro h
    show max 30 (100 - Int.fdiv (jsOrInt item.distanceValue 100) 10) = 90
    rcases h with h | h <;> (rw [h]; decide)

/-- **C1** witness: the amended theorem applied at a concrete record with
distance 100. -/
theorem signalStrength_from_distance_witness :
    (normalizeItem 0 0 0 0
      { name := none, address := none, distanceValue := some 100,
        signalStrength := none, security := none, password := none,
        type := none }).signalStrength = 90 :=
  (signalStrength_from_distance 0 0 0 0 _).2.1 rfl

/-- **C2** (code bug): when the source omits the distance, the code draws
`Math.floor(Math.random() * 500)` twice — once for the `distance` string and
once for `distanceValue` — so with draws 7 and 123 the string is "7m" while
the numeric field is 123, and the two fields disagree. -/
theorem distance_fields_disagree :
    (normalizeItem 0 0 7 123 missingDistItem).distance = "7m" ∧
    (normalizeItem 0 0 7 123 missingDistItem).distanceValue = some 123 ∧
    (normalizeItem 0 0 7 123 missingDistItem).distance ≠
      toString (123 : Int) ++ "m" := by
  decide

/-- **C3** counterexample: a raw record supplying signal strength 55 is
normalized to signal strength 90 (the formula value at distance 100): the
supplied value is not retained. -/
theorem suppliedSignal_ignored_cex :
    suppliedSignalItem.signalStrength = some 55 ∧
    (normalizeItem 0 0 0 0 suppliedSignalItem).signalStrength = 90 ∧
    (normalizeItem 0 0 0 0 suppliedSignalItem).signalStrength ≠ 55 := by
  decide

/-- **C3** (amended): the mapper never reads a supplied signal-strength
value; the normalized signal strength is always computed by the
`max(30, 100 - floor(d / 10))` formula from the (defaulted) distance,
whatever signal strength the raw record carried. -/
theorem signalStrength_ignores_supplied (index now r1 r2 : Nat) (item : RawItem)
    (s : Option Int) :
    (normalizeItem index now r1 r2
        { item with signalStrength := s }).signalStrength =
      (normalizeItem index now r1 r2 item).signalStrength ∧
    (normalizeItem index now r1 r2 item).signalStrength =
      max 30 (100 - Int.fdiv (jsOrInt item.distanceValue 100) 10) :=
  ⟨rfl, rfl⟩

/-- **C4** counterexample: a non-Open, non-Public hotspot carrying the
password value `""` does not get that stored value back — the truthiness
guard on line 89 treats the empty string as absent, so retrieval returns no
password and the not-found message. -/
theorem retrieve_empty_password_cex :
    emptyPasswordHotspot.security = "WPA2" ∧
    emptyPasswordHotspot.password = some "" ∧
    retrievePasswordEthically emptyPasswordHotspot = (none, notFoundMessage) ∧
    (retrievePasswordEthically emptyPasswordHotspot).1 ≠ some "" := by
  decide

/-- **C4** (amended): policy in order — Open or Public security returns no
password with the public-network message (even if a password is stored);
otherwise a stored non-empty password is returned verbatim with the
community-database message; otherwise (password absent or empty) no password
is returned, with the message that no shared password was found. -/
theorem retrievePassword_policy (h : WiFiHotspot) :
    ((h.security = "Open" ∨ h.security = "Public") →
      retrievePasswordEthically h = (none, publicNetworkMessage)) ∧
    (¬ (h.security = "Open" ∨ h.security = "Public") →
      ∀ p : String, h.password = some p → p ≠ "" →
        retrievePasswordEthically h = (some p, retrievedMessage)) ∧
    (¬ (h.security = "Open" ∨ h.security = "Public") →
      (h.password = none ∨ h.password = some "") →
      retrievePasswordEthically h = (none, notFoundMessage)) := by
  refine ⟨?_, ?_, ?_⟩
  · intro hsec
    simp [retrievePasswordEthically, hsec]
  · intro hsec p hp hne
    simp [retrievePasswordEthically, hsec, jsTruthyStr, hp, hne]
  · intro hsec hpw
    rcases hpw with h1 | h1 <;>
      simp [retrievePasswordEthically, hsec, jsTruthyStr, h1]

/-- **C4** witness: the amended policy applied at three concrete hotspots,
one per branch — a Public hotspot with a stored password, a WPA2 hotspot
storing "coffee_lover", and a WPA3 hotspot with no stored password. -/
theorem retrievePassword_policy_witness :
    retrievePasswordEthically
      { id := "1", name := "Starbucks_Guest", address := "123 Main St",
        distance := "150m", distanceValue := some 150, signalStrength := 92,
        security := "Public", password := some "None (Web Login)",
        type := "Cafe" } = (none, publicNetworkMessage) ∧
    retrievePasswordEthically
      { id := "3", name := "DailyGrind_Secure", address := "789 Brew Blvd",
        distance := "450m", distanceValue := some 450, signalStrength := 78,
        security := "WPA2", password := some "coffee_lover",
        type := "Cafe" } = (some "coffee_lover", retrievedMessage) ∧
    retrievePasswordEthically
      { id := "4", name := "Office_Net", address := "10 Work Way",
        distance := "80m", distanceValue := some 80, signalStrength := 95,
        security := "WPA3", password := none,
        type := "Other" } = (none, notFoundMessage) :=
  ⟨(retrievePassword_policy _).1 (Or.inr rfl),
   (retrievePassword_policy _).2.1 (by decide) "coffee_lover" rfl (by decide),
   (retrievePassword_policy _).2.2 (by decide) (Or.inl rfl)⟩

/-- **C5**: `findNearbyWiFi` never fails its caller — when the text contains
no bracketed array substring, or deserializing/mapping throws, it returns
exactly the fixed 3-entry sample list (with names Starbucks_Guest /
Library_Free_WiFi / DailyGrind_Secure, distanceValue 150/300/450 and
signalStrength 92/85/78); when the upstream call throws it returns the empty
sequence. -/
theorem findNearbyWiFi_degrades (parse : String → Option (List RawItem))
    (rand now : Nat → Nat) (t : Option String) :
    (jsonMatch (t.getD "") = none →
      findNearbyWiFi (.ok t) parse rand now = fallbackHotspots) ∧
    (∀ m, jsonMatch (t.getD "") = some m → parse m = none →
      findNearbyWiFi (.ok t) parse rand now = fallbackHotspots) ∧
    findNearbyWiFi (.error ()) parse rand now = [] ∧
    fallbackHotspots.map (fun h => h.name) =
      ["Starbucks_Guest", "Library_Free_WiFi", "DailyGrind_Secure"] ∧
    fallbackHotspots.map (fun h => h.distanceValue) =
      [some 150, some 300, some 450] ∧
    fallbackHotspots.map (fun h => h.signalStrength) = [92, 85, 78] := by
  refine ⟨?_, ?_, rfl, by decide, by decide, by decide⟩
  · intro h
    simp [findNearbyWiFi, h]
  · intro m hm hp
    simp [findNearbyWiFi, hm, hp]

/-- **C5** witness: a response with no bracket yields the fallback list. -/
theorem findNearbyWiFi_degrades_witness :
    findNearbyWiFi (.ok (some "plain text without any JSON payload"))
      (fun _ => none) (fun _ => 0) (fun _ => 0) = fallbackHotspots :=
  (findNearbyWiFi_degrades (fun _ => none) (fun _ => 0) (fun _ => 0)
    (some "plain text without any JSON payload")).1 (by decide)

/-- **C6**: for every hotspot list, the displayed sequence is the list
sorted — by name in non-decreasing lexicographic order, by `distanceValue`
in non-decreasing numeric order with a missing value treated as 0, and by
`signalStrength` in non-increasing numeric order; each sorted view is a
permutation of the input list. -/
theorem sortedHotspots_ordered (l : List WiFiHotspot) :
    ((sortedHotspots .name l).Sorted
        (fun a b => charsLe a.name.data b.name.data = true) ∧
      (sortedHotspots .name l).Perm l) ∧
    ((sortedHotspots .distanceValue l).Sorted
        (fun a b => a.distanceValue.getD 0 ≤ b.distanceValue.getD 0) ∧
      (sortedHotspots .distanceValue l).Perm l) ∧
    ((sortedHotspots .signalStrength l).Sorted
        (fun a b => b.signalStrength ≤ a.signalStrength) ∧
      (sortedHotspots .signalStrength l).Perm l) := by
  refine ⟨⟨?_, List.mergeSort_perm l _⟩, ⟨?_, List.mergeSort_perm l _⟩,
    ⟨?_, List.mergeSort_perm l _⟩⟩
  · exact List.sorted_mergeSort (hotspotLe_trans .name) (hotspotLe_total .name) l
  · exact (List.sorted_mergeSort (hotspotLe_trans .distanceValue)
      (hotspotLe_total .distanceValue) l).imp (fun hab => of_decide_eq_true hab)
  · exact (List.sorted_mergeSort (hotspotLe_trans .signalStrength)
      (hotspotLe_total .signalStrength) l).imp (fun hab => of_decide_eq_true hab)

/-- **C7**: for every hotspot list and sort key, sorting is idempotent —
sorting an already-sorted sequence returns it unchanged — and
non-destructive: the sorted view has the same length and the same members
as the underlying list, which the pure sort never mutates. -/
theorem sortedHotspots_idempotent (key : SortKey) (l : List WiFiHotspot) :
    sortedHotspots key (sortedHotspots key l) = sortedHotspots key l ∧
    (sortedHotspots key l).length = l.length ∧
    (∀ x, x ∈ sortedHotspots key l ↔ x ∈ l) := by
  refine ⟨?_, (List.mergeSort_perm l _).length_eq,
    fun x => (List.mergeSort_perm l _).mem_iff⟩
  exact List.mergeSort_of_sorted
    (List.sorted_mergeSort (hotspotLe_trans key) (hotspotLe_total key) l)

/-- **C8**: normalization strips the sentinel — a raw password equal to
"None" becomes an absent password, while any other non-empty raw password
string is preserved verbatim. -/
theorem password_sentinel_normalization (index now r1 r2 : Nat)
    (item : RawItem) :
    (item.password = some "None" →
      (normalizeItem index now r1 r2 item).password = none) ∧
    (∀ p : String, item.password = some p → p ≠ "None" → p ≠ "" →
      (normalizeItem index now r1 r2 item).password = some p) := by
  constructor
  · intro h
    show (if item.password = some "None" then none else item.password) = none
    simp [h]
  · intro p hp hne _
    show (if item.password = some "None" then none else item.password) = some p
    rw [hp]
    simp [hne]

/-- **C8** witness: the sentinel "None" is stripped and the non-empty
password "coffee_lover" is preserved, at concrete records. -/
theorem password_sentinel_normalization_witness :
    (normalizeItem 0 0 0 0
      { name := none, address := none, distanceValue := some 100,
        signalStrength := none, security := none, password := some "None",
        type := none }).password = none ∧
    (normalizeItem 0 0 0 0
      { name := none, address := none, distanceValue := some 100,
        signalStrength := none, security := none,
        password := some "coffee_lover", type := none }).password =
      some "coffee_lover" :=
  ⟨(password_sentinel_normalization 0 0 0 0 _).1 rfl,
   (password_sentinel_normalization 0 0 0 0 _).2 "coffee_lover" rfl
     (by decide) (by decide)⟩

/-- **C9**: whenever every parsed record's supplied distance is absent or a
nonnegative number, every hotspot returned by `findNearbyWiFi` — normalized,
fallback, or none at all — has a signal strength in the range [30, 100]. -/
theorem signalStrength_in_range (upstream : Except Unit (Option String))
    (parse : String → Option (List RawItem)) (rand now : Nat → Nat)
    (hparse : ∀ s items, parse s = some items → ∀ item ∈ items,
      item.distanceValue = none ∨
        ∃ d : Int, item.distanceValue = some d ∧ 0 ≤ d) :
    ∀ h ∈ findNearbyWiFi upstream parse rand now,
      30 ≤ h.signalStrength ∧ h.signalStrength ≤ 100 := by
  intro h hmem
  match upstream with
  | .error _ => simp [findNearbyWiFi] at hmem
  | .ok t =>
    simp only [findNearbyWiFi] at hmem
    cases hjm : jsonMatch (t.getD "") with
    | none =>
      simp only [hjm] at hmem
      exact fallback_signalStrength_bounds h hmem
    | some m =>
      simp only [hjm] at hmem
      cases hp : parse m with
      | none =>
        simp only [hp] at hmem
        exact fallback_signalStrength_bounds h hmem
      | some data =>
        simp only [hp] at hmem
        obtain ⟨j, item, hitem, he⟩ := mem_normalizeAll 0 data h hmem
        subst he
        exact normalizeItem_signalStrength_bounds _ _ _ _ _
          (hparse m data hp item hitem)

/-- **C9** witness: with a response whose bracketed part fails to parse, the
first fallback hotspot is in range. -/
theorem signalStrength_in_range_witness :
    30 ≤ ({ id := "1", name := "Starbucks_Guest", address := "123 Main St",
            distance := "150m", distanceValue := some 150,
            signalStrength := 92, security := "Public",
            password := some "None (Web Login)",
            type := "Cafe" } : WiFiHotspot).signalStrength ∧
      ({ id := "1", name := "Starbucks_Guest", address := "123 Main St",
         distance := "150m", distanceValue := some 150, signalStrength := 92,
         security := "Public", password := some "None (Web Login)",
         type := "Cafe" } : WiFiHotspot).signalStrength ≤ 100 :=
  signalStrength_in_range (.ok (some "x[1]y")) (fun _ => none)
    (fun _ => 0) (fun _ => 0) (fun _ _ hc => nomatch hc) _ (by decide)

/-- **C10**: `retrievePasswordEthically` is a deterministic function of the
hotspot's `security` and `password` fields alone — two hotspots agreeing on
those two fields receive identical password-and-message results. -/
theorem retrievePassword_deterministic (h1 h2 : WiFiHotspot)
    (hsec : h1.security = h2.security) (hpw : h1.password = h2.password) :
    retrievePasswordEthically h1 = retrievePasswordEthically h2 := by
  simp only [retrievePasswordEthically, hsec, hpw]

/-- **C10** witness: two hotspots differing in every field except `security`
and `password` receive the same retrieval result. -/
theorem retrievePassword_deterministic_witness :
    retrievePasswordEthically
      { id := "a", name := "Alpha", address := "1 First St", distance := "5m",
        distanceValue := some 5, signalStrength := 90, security := "WPA3",
        password := some "pw", type := "Cafe" } =
    retrievePasswordEthically
      { id := "b", name := "Beta", address := "2 Second St", distance := "9m",
        distanceValue := some 9, signalStrength := 40, security := "WPA3",
        password := some "pw", type := "Library" } :=
  retrievePassword_deterministic _ _ rfl rfl
